import Mathlib

/-!
Verification of the OfferGo frontend (offer upload, score normalization,
market comparison and persisted-state handling) against its specification.
JavaScript numbers are modelled as rationals; `Math.round` is modelled as
`jround` (floor of `x + 1/2`, matching the JS tie-toward-positive-infinity
behaviour); a possibly-NaN JavaScript number is modelled as `Option ℚ`
with `none` standing for NaN (arithmetic propagates it, comparisons on it
are false).  Values read from `localStorage`/`sessionStorage` are modelled
as `Option (Option α)`: `none` is an absent key, `some none` a stored
string whose `JSON.parse` throws, `some (some v)` a well-formed value.
-/

namespace OfferGo

/-- JS `Math.round`: floor of `x + 1/2` (ties go toward positive infinity). -/
def jround (x : ℚ) : ℤ := ⌊x + 1 / 2⌋

/-- The `clamp` helper from `Submission.tsx`:
`Math.max(low, Math.min(high, n))`, at integer values. -/
def clampI (n low high : ℤ) : ℤ := max low (min high n)

/-- Recommendation values of the workflow evaluation. -/
inductive Rec where
  | accept
  | renegotiate
  | needs_more_info
deriving DecidableEq, Repr

/-- Impact values of a key driver. -/
inductive Impact where
  | positive
  | negative
  | neutral
deriving DecidableEq, Repr

/-- A key driver entry of the workflow evaluation. -/
structure Driver where
  label : String
  impact : Impact
deriving DecidableEq, Repr

/-- A negotiation target entry of the workflow evaluation. -/
structure NegTarget where
  item : String
  ask : String
  reason : String
deriving DecidableEq, Repr

/-- The `WorkflowEvaluation` payload type of `Submission.tsx`. -/
structure WorkflowEvaluation where
  score : ℚ
  recommendation : Rec
  confidence : ℚ
  key_drivers : List Driver
  negotiation_targets : List NegTarget
  risks : List String
  followup_questions : List String
  one_paragraph_summary : String
deriving DecidableEq, Repr

/-- The four priority sliders of `Submission.tsx` (integers 1..5 in the UI). -/
structure Priorities where
  financial : ℤ
  career : ℤ
  lifestyle : ℤ
  alignment : ℤ
deriving DecidableEq, Repr

/-- The five category scores of the analysis result. -/
structure CategoryScores where
  financial : ℤ
  career : ℤ
  lifestyle : ℤ
  alignment : ℤ
  risk : ℤ
deriving DecidableEq, Repr

/-- One row of the comparison chart data. -/
structure OfferComparison where
  name : String
  overall : ℤ
  financial : ℤ
  career : ℤ
  risk : ℤ
deriving DecidableEq, Repr

/-- The `ResultsAnalysisData` produced by the normalizer in `Submission.tsx`. -/
structure ResultsAnalysisData where
  overallScore : ℤ
  categoryScores : CategoryScores
  grade : String
  strengths : List String
  risks : List String
  financialProjection : String
  negotiationInsights : String
  comparisonData : List OfferComparison
  confidence : ℤ
  recommendation : Rec
deriving DecidableEq, Repr

/-- The `toGrade` helper of `Submission.tsx`. -/
def toGrade (score100 : ℤ) : String :=
  if score100 ≥ 93 then "A"
  else if score100 ≥ 85 then "A-"
  else if score100 ≥ 78 then "B+"
  else if score100 ≥ 70 then "B"
  else if score100 ≥ 62 then "C"
  else "D"

/-- Strips a trailing `.pdf` / `.doc` / `.docx` extension, case-insensitively:
the `replace(/\.(pdf|doc|docx)$/i, "")` applied to the current file name. -/
def stripOfferExt (s : String) : String :=
  let low := s.toLower
  if low.endsWith ".docx" then s.dropRight 5
  else if low.endsWith ".pdf" then s.dropRight 4
  else if low.endsWith ".doc" then s.dropRight 4
  else s

/-- The `mapEvalToAnalysis` normalizer of `Submission.tsx`, translated
line by line (priorities are the slider state read by the component). -/
def mapEvalToAnalysis (priorities : Priorities) (evalOut : WorkflowEvaluation)
    (currentFileName : String) : ResultsAnalysisData :=
  let overallScore := clampI (jround (evalOut.score * 10)) 0 100
  let confidence := clampI (jround (evalOut.confidence * 100)) 0 100
  let riskPenalty : ℤ :=
    if evalOut.recommendation = Rec.needs_more_info then 18
    else if evalOut.recommendation = Rec.renegotiate then 8 else 0
  let riskScore := clampI
    (jround (76 - (evalOut.risks.length : ℚ) * 7 - (riskPenalty : ℚ)
      + (confidence : ℚ) * (1 / 10))) 12 95
  let categoryScores : CategoryScores :=
    { financial := clampI
        (jround ((overallScore : ℚ) + ((priorities.financial : ℚ) - 3) * 6)) 8 98
      career := clampI
        (jround ((overallScore : ℚ) - 4 + ((priorities.career : ℚ) - 3) * 6)) 8 98
      lifestyle := clampI
        (jround ((overallScore : ℚ) - 8 + ((priorities.lifestyle : ℚ) - 3) * 6)) 8 95
      alignment := clampI
        (jround ((overallScore : ℚ) - 6 + ((priorities.alignment : ℚ) - 3) * 6)) 8 96
      risk := riskScore }
  let strengths := ((evalOut.key_drivers.filter
    (fun d => d.impact = Impact.positive ∨ d.impact = Impact.neutral)).map
      (fun d => d.label)).take 6
  let negotiationInsights :=
    if evalOut.negotiation_targets.length > 0 then
      String.intercalate " " (evalOut.negotiation_targets.map
        (fun t => t.item ++ ": " ++ t.ask ++ " (" ++ t.reason ++ ")"))
    else "No negotiation targets were returned by the model."
  { overallScore := overallScore
    categoryScores := categoryScores
    grade := toGrade overallScore
    strengths := if strengths.length > 0 then strengths
      else ["Model did not return positive key drivers."]
    risks := evalOut.risks
    financialProjection := evalOut.one_paragraph_summary
    negotiationInsights := negotiationInsights
    comparisonData := [{ name := stripOfferExt currentFileName
                         overall := overallScore
                         financial := categoryScores.financial
                         career := categoryScores.career
                         risk := categoryScores.risk }]
    confidence := confidence
    recommendation := evalOut.recommendation }

/-- Scores as the specification words them, for comparison with the
normalizer: overall is round(score×10) clamped to [0,100]; risk is
76 − 7×(risk count) − penalty + 0.1×confidence rounded and clamped to
[12,95]; each category is overall plus its fixed offset plus
(priority − 3)×6, clamped to its category bounds. -/
structure SpecScores where
  overall : ℤ
  confidence : ℤ
  risk : ℤ
  financial : ℤ
  career : ℤ
  lifestyle : ℤ
  alignment : ℤ
deriving DecidableEq, Repr

/-- Scores computed from the specification sentences (not from the code). -/
def specScores (priorities : Priorities) (evalOut : WorkflowEvaluation) : SpecScores :=
  let overall := clampI (jround (evalOut.score * 10)) 0 100
  let confidence := clampI (jround (evalOut.confidence * 100)) 0 100
  let penalty : ℤ :=
    if evalOut.recommendation = Rec.needs_more_info then 18
    else if evalOut.recommendation = Rec.renegotiate then 8 else 0
  { overall := overall
    confidence := confidence
    risk := clampI (jround ((76 : ℚ) - 7 * (evalOut.risks.length : ℚ)
      - (penalty : ℚ) + (1 / 10) * (confidence : ℚ))) 12 95
    financial := clampI (overall + 0 + (priorities.financial - 3) * 6) 8 98
    career := clampI (overall + (-4) + (priorities.career - 3) * 6) 8 98
    lifestyle := clampI (overall + (-8) + (priorities.lifestyle - 3) * 6) 8 95
    alignment := clampI (overall + (-6) + (priorities.alignment - 3) * 6) 8 96 }

/-- Rounding an integer-valued rational is the identity. -/
theorem jround_intCast (n : ℤ) : jround (n : ℚ) = n := by
  unfold jround
  rw [Int.floor_eq_iff]
  constructor
  · linarith
  · linarith

/-- Rounding a rational that equals an integer cast gives that integer. -/
theorem jround_eq_of_eq_intCast (x : ℚ) (n : ℤ) (h : x = (n : ℚ)) : jround x = n := by
  rw [h, jround_intCast]

/-- Ranks of the six grades, for stating monotonicity of the grade map. -/
def gradeRank (g : String) : ℕ :=
  if g = "A" then 5
  else if g = "A-" then 4
  else if g = "B+" then 3
  else if g = "B" then 2
  else if g = "C" then 1
  else 0

/-- C1: the normalizer computes exactly the scores the specification
describes: overall is round(score × 10) clamped to [0,100]; confidence is
round(confidence × 100) clamped to [0,100]; risk is round(76 − 7·risks −
penalty + 0.1·confidence) clamped to [12,95] with penalty 18/8/0 by
recommendation; and each category is overall plus its fixed offset
(0, −4, −8, −6) plus (priority − 3)·6, clamped to its category bounds. -/
theorem mapEvalToAnalysis_matches_specScores (pr : Priorities)
    (e : WorkflowEvaluation) (fn : String) :
    (mapEvalToAnalysis pr e fn).overallScore = (specScores pr e).overall ∧
    (mapEvalToAnalysis pr e fn).confidence = (specScores pr e).confidence ∧
    (mapEvalToAnalysis pr e fn).categoryScores.risk = (specScores pr e).risk ∧
    (mapEvalToAnalysis pr e fn).categoryScores.financial = (specScores pr e).financial ∧
    (mapEvalToAnalysis pr e fn).categoryScores.career = (specScores pr e).career ∧
    (mapEvalToAnalysis pr e fn).categoryScores.lifestyle = (specScores pr e).lifestyle ∧
    (mapEvalToAnalysis pr e fn).categoryScores.alignment = (specScores pr e).alignment := by
  simp only [mapEvalToAnalysis, specScores]
  refine ⟨trivial, trivial, ?_, ?_, ?_, ?_, ?_⟩
  · congr 1
    congr 1
    ring
  · congr 1
    apply jround_eq_of_eq_intCast
    push_cast
    ring
  · congr 1
    apply jround_eq_of_eq_intCast
    push_cast
    ring
  · congr 1
    apply jround_eq_of_eq_intCast
    push_cast
    ring
  · congr 1
    apply jround_eq_of_eq_intCast
    push_cast
    ring

/-- C2: the grade map is monotonic in the score, follows exactly the
threshold table (≥93 → A, ≥85 → A-, ≥78 → B+, ≥70 → B, ≥62 → C, else D),
and in particular sends 93 to A, 92 to A-, 70 to B and 61 to D. -/
theorem toGrade_monotone_thresholds :
    (∀ s t : ℤ, s ≤ t → gradeRank (toGrade s) ≤ gradeRank (toGrade t)) ∧
    (∀ s : ℤ, toGrade s =
      if s ≥ 93 then "A"
      else if s ≥ 85 then "A-"
      else if s ≥ 78 then "B+"
      else if s ≥ 70 then "B"
      else if s ≥ 62 then "C"
      else "D") ∧
    toGrade 93 = "A" ∧ toGrade 92 = "A-" ∧ toGrade 70 = "B" ∧ toGrade 61 = "D" := by
  refine ⟨?_, fun s => rfl, by decide, by decide, by decide, by decide⟩
  intro s t hst
  unfold toGrade
  split_ifs <;> first | decide | omega

/-- Witness for C2 at concrete scores. -/
theorem toGrade_monotone_thresholds_witness :
    gradeRank (toGrade 61) ≤ gradeRank (toGrade 93) ∧ toGrade 93 = "A" :=
  ⟨toGrade_monotone_thresholds.1 61 93 (by decide),
   toGrade_monotone_thresholds.2.2.1⟩

/-- An uploaded offer entry of `Submission.tsx` (the `File` object is kept
as its file name). -/
structure UploadedOffer where
  id : String
  fileName : String
  isCurrent : Bool
deriving DecidableEq, Repr

/-- The `handleFileUpload` handler: appends a new entry whose `isCurrent`
flag is set exactly when the list was empty. -/
def handleFileUpload (offers : List UploadedOffer) (newId fileName : String) :
    List UploadedOffer :=
  offers ++ [{ id := newId, fileName := fileName, isCurrent := offers.length == 0 }]

/-- The `removeOffer` handler: filters the entry out and, if entries remain
but none is current, marks the first remaining entry current. -/
def removeOffer (offers : List UploadedOffer) (offerId : String) :
    List UploadedOffer :=
  let filtered := offers.filter (fun o => o.id != offerId)
  if filtered.length > 0 && !(filtered.any (fun o => o.isCurrent)) then
    match filtered with
    | [] => []
    | h :: t => { h with isCurrent := true } :: t
  else filtered

/-- The `selectCurrent` handler: marks exactly the entries with the given
id as current. -/
def selectCurrent (offers : List UploadedOffer) (offerId : String) :
    List UploadedOffer :=
  offers.map (fun o => { o with isCurrent := o.id == offerId })

/-- An operation on the offer list. -/
inductive OfferOp where
  | upload (newId fileName : String)
  | remove (offerId : String)
  | select (offerId : String)
deriving DecidableEq, Repr

/-- Apply one operation to the offer list. -/
def applyOfferOp (offers : List UploadedOffer) : OfferOp → List UploadedOffer
  | .upload i f => handleFileUpload offers i f
  | .remove i => removeOffer offers i
  | .select i => selectCurrent offers i

/-- The ids of the offer list. -/
def offerIds (offers : List UploadedOffer) : List String :=
  offers.map (fun o => o.id)

/-- Validity of one operation in the UI: an upload gets a fresh id
(`crypto.randomUUID`), and selection is triggered from a rendered entry,
so its id is one of the listed ids. -/
def opOk (offers : List UploadedOffer) : OfferOp → Prop
  | .upload i _ => i ∉ offerIds offers
  | .remove _ => True
  | .select i => i ∈ offerIds offers

/-- Validity of a whole run of operations. -/
def runOk (offers : List UploadedOffer) : List OfferOp → Prop
  | [] => True
  | op :: ops => opOk offers op ∧ runOk (applyOfferOp offers op) ops

/-- Run a list of operations. -/
def runOps (offers : List UploadedOffer) : List OfferOp → List UploadedOffer
  | [] => offers
  | op :: ops => runOps (applyOfferOp offers op) ops

/-- Number of entries marked current. -/
def currentCount (offers : List UploadedOffer) : ℕ :=
  (offers.filter (fun o => o.isCurrent)).length

/-- The offer-list invariant: ids are distinct, and a non-empty list has
exactly one current entry. -/
def OfferInv (offers : List UploadedOffer) : Prop :=
  (offerIds offers).Nodup ∧ (offers ≠ [] → currentCount offers = 1)

theorem currentCount_append (a b : List UploadedOffer) :
    currentCount (a ++ b) = currentCount a + currentCount b := by
  simp [currentCount, List.filter_append]

theorem currentCount_selectCurrent (s : List UploadedOffer) (i : String) :
    currentCount (selectCurrent s i) = (offerIds s).count i := by
  induction s with
  | nil => rfl
  | cons h t ih =>
    by_cases hc : h.id = i
    · simp [selectCurrent, currentCount, offerIds, List.filter_cons, hc,
        List.count_cons] at *
      omega
    · simp [selectCurrent, currentCount, offerIds, List.filter_cons, hc,
        List.count_cons] at *
      exact ih

theorem offerIds_selectCurrent (s : List UploadedOffer) (i : String) :
    offerIds (selectCurrent s i) = offerIds s := by
  simp [selectCurrent, offerIds]

theorem currentCount_filter_le (s : List UploadedOffer) (p : UploadedOffer → Bool) :
    currentCount (s.filter p) ≤ currentCount s := by
  unfold currentCount
  exact ((List.filter_sublist s).filter _).length_le

/-- Each valid operation preserves the invariant. -/
theorem applyOfferOp_preserves (s : List UploadedOffer) (op : OfferOp)
    (hinv : OfferInv s) (hop : opOk s op) : OfferInv (applyOfferOp s op) := by
  obtain ⟨hnd, hcnt⟩ := hinv
  cases op with
  | upload i f =>
    constructor
    · simp only [applyOfferOp, handleFileUpload, offerIds, List.map_append]
      rw [List.nodup_append]
      refine ⟨hnd, List.nodup_singleton _, ?_⟩
      intro a ha hb
      simp only [List.map_cons, List.map_nil, List.mem_singleton] at hb
      exact hop (hb ▸ ha)
    · intro _
      rcases List.eq_nil_or_concat s with hs | _
      · subst hs
        rfl
      · have hne : s ≠ [] := by
          rename_i hcon
          obtain ⟨a, b, rfl⟩ := hcon
          simp
        have hlen : s.length ≠ 0 := by
          simpa [List.length_eq_zero] using hne
        simp only [applyOfferOp, handleFileUpload, currentCount_append]
        have : currentCount [{ id := i, fileName := f, isCurrent := s.length == 0 }] = 0 := by
          simp [currentCount, List.filter_cons, hlen]
        rw [this, hcnt hne]
  | remove i =>
    simp only [applyOfferOp, removeOffer]
    set filtered := s.filter (fun o => o.id != i) with hfil
    have hsub : List.Sublist (offerIds filtered) (offerIds s) :=
      (List.filter_sublist s).map _
    have hndf : (offerIds filtered).Nodup := hsub.nodup hnd
    by_cases hempty : filtered = []
    · simp only [hempty, List.length_nil, List.any_nil]
      exact ⟨List.nodup_nil, fun h => absurd rfl h⟩
    · have hne : s ≠ [] := by
        intro h
        apply hempty
        rw [hfil, h]
        rfl
      have hc1 : currentCount s = 1 := hcnt hne
      by_cases hany : filtered.any (fun o => o.isCurrent)
      · have hpos : 0 < currentCount filtered := by
          rw [List.any_eq_true] at hany
          obtain ⟨x, hx, hxc⟩ := hany
          have : x ∈ filtered.filter (fun o => o.isCurrent) :=
            List.mem_filter.mpr ⟨hx, hxc⟩
          exact List.length_pos.mpr (List.ne_nil_of_mem this)
        have hle : currentCount filtered ≤ currentCount s :=
          currentCount_filter_le s _
        rw [if_neg (by simp [hany])]
        exact ⟨hndf, fun _ => by omega⟩
      · have hflen : filtered.length > 0 := List.length_pos.mpr hempty
        rw [if_pos (by simp [hany, hflen])]
        obtain ⟨h, t, hht⟩ := List.exists_cons_of_ne_nil hempty
        rw [hht]
        show OfferInv ({ h with isCurrent := true } :: t)
        have hnone : ∀ x ∈ filtered, x.isCurrent = false := by
          intro x hx
          by_contra hxc
          exact hany (List.any_eq_true.mpr ⟨x, hx, by simpa using hxc⟩)
        constructor
        · have : offerIds ({ h with isCurrent := true } :: t) = offerIds (h :: t) := by
            simp [offerIds]
          rw [this, ← hht]
          exact hndf
        · intro _
          have ht0 : currentCount t = 0 := by
            simp only [currentCount, List.length_eq_zero, List.filter_eq_nil_iff]
            intro x hx
            simp [hnone x (hht ▸ List.mem_cons_of_mem h hx)]
          have hcc : currentCount ({ h with isCurrent := true } :: t) =
              currentCount t + 1 := by
            simp [currentCount, List.filter_cons]
          omega
  | select i =>
    constructor
    · rw [show applyOfferOp s (OfferOp.select i) = selectCurrent s i from rfl,
        offerIds_selectCurrent]
      exact hnd
    · intro _
      rw [show applyOfferOp s (OfferOp.select i) = selectCurrent s i from rfl,
        currentCount_selectCurrent]
      exact List.count_eq_one_of_mem hnd hop

/-- A valid run from an invariant-satisfying state keeps the invariant. -/
theorem runOps_preserves (ops : List OfferOp) :
    ∀ s : List UploadedOffer, OfferInv s → runOk s ops → OfferInv (runOps s ops) := by
  induction ops with
  | nil => exact fun s h _ => h
  | cons op ops ih =>
    intro s hinv hok
    exact ih _ (applyOfferOp_preserves s op hinv hok.1) hok.2

/-- C3: after any valid sequence of upload/remove/select operations starting
from the empty offer list, a non-empty resulting list has exactly one entry
marked current. -/
theorem offerList_exactly_one_current (ops : List OfferOp)
    (hok : runOk [] ops) (hne : runOps [] ops ≠ []) :
    currentCount (runOps [] ops) = 1 :=
  (runOps_preserves ops [] ⟨List.nodup_nil, fun h => absurd rfl h⟩ hok).2 hne

/-- Witness for C3 on a concrete run: two uploads, a selection, then a
removal of the selected entry. -/
theorem offerList_exactly_one_current_witness :
    runOk [] [OfferOp.upload "a" "x.pdf", OfferOp.upload "b" "y.pdf",
      OfferOp.select "b", OfferOp.remove "b"] ∧
    runOps [] [OfferOp.upload "a" "x.pdf", OfferOp.upload "b" "y.pdf",
      OfferOp.select "b", OfferOp.remove "b"] ≠ [] ∧
    currentCount (runOps [] [OfferOp.upload "a" "x.pdf", OfferOp.upload "b" "y.pdf",
      OfferOp.select "b", OfferOp.remove "b"]) = 1 := by
  have hok : runOk [] [OfferOp.upload "a" "x.pdf", OfferOp.upload "b" "y.pdf",
      OfferOp.select "b", OfferOp.remove "b"] := by
    simp [runOk, opOk, applyOfferOp, handleFileUpload, selectCurrent, removeOffer,
      offerIds]
  have hne : runOps [] [OfferOp.upload "a" "x.pdf", OfferOp.upload "b" "y.pdf",
      OfferOp.select "b", OfferOp.remove "b"] ≠ [] := by
    simp [runOps, applyOfferOp, handleFileUpload, selectCurrent, removeOffer]
  exact ⟨hok, hne, offerList_exactly_one_current _ hok hne⟩

/-- The parsed compensation fields stored under `offergo-ingest-parsed`
(each may be `null` or missing, modelled as `none`). -/
structure IngestParsed where
  base_salary : Option ℚ
  bonus_target : Option ℚ
  equity_amount : Option ℚ
deriving DecidableEq, Repr

/-- The factor applied to a known offer total to estimate the market
total in `Results.tsx`: 0.95 when the stored evaluation recommends
accepting, 1.2 otherwise (also when no evaluation is stored). -/
def marketFactor (recOpt : Option Rec) : ℚ :=
  if recOpt.getD Rec.needs_more_info = Rec.accept then 95 / 100 else 12 / 10

/-- JS truthiness test `x && x > 0` on a nullable number: `null` and `0`
are falsy, then the comparison is evaluated. -/
def jsTruthyPos (x : Option ℚ) : Bool :=
  match x with
  | none => false
  | some v => v != 0 && decide (0 < v)

/-- The offer total before the fallback derivation, when the ingestion
fields are stored: base + base·(bonus%/100) + equity, replaced by the
total extracted from the evaluation text when the sum is not positive
and the extracted value is truthy positive. -/
def initOfferParsed (p : IngestParsed) (extractedOffer : Option ℚ) : ℚ :=
  let base := p.base_salary.getD 0
  let bonusPct := p.bonus_target.getD 0
  let equity := p.equity_amount.getD 0
  let offerTotal := base + base * (bonusPct / 100) + equity
  if offerTotal ≤ 0 ∧ jsTruthyPos extractedOffer = true then extractedOffer.getD 0
  else offerTotal

/-- The market total before the fallback derivation: the value extracted
from the evaluation text, or 0. -/
def initMarket (extractedMarket : Option ℚ) : ℚ := extractedMarket.getD 0

/-- The `useEffect` total derivation of `Results.tsx` when the stored
ingestion fields parse: first the market side is derived from a positive
offer total, then the offer side from a positive market total. -/
def deriveTotalsParsed (p : IngestParsed) (extractedMarket extractedOffer : Option ℚ)
    (recOpt : Option Rec) : ℚ × ℚ :=
  let offerTotal1 := initOfferParsed p extractedOffer
  let marketTotal0 := initMarket extractedMarket
  let marketTotal1 :=
    if marketTotal0 ≤ 0 ∧ 0 < offerTotal1 then
      ((jround (offerTotal1 * marketFactor recOpt) : ℤ) : ℚ)
    else marketTotal0
  let offerTotal2 :=
    if offerTotal1 ≤ 0 ∧ 0 < marketTotal1 then
      ((jround (marketTotal1 * (75 / 100)) : ℤ) : ℚ)
    else offerTotal1
  (offerTotal2, marketTotal1)

/-- The `useEffect` total derivation of `Results.tsx` when no ingestion
fields are stored: both sides start from the extracted values, the offer
side is derived first, then the market side. -/
def deriveTotalsNoParsed (extractedMarket extractedOffer : Option ℚ)
    (recOpt : Option Rec) : ℚ × ℚ :=
  let offerTotal0 := extractedOffer.getD 0
  let marketTotal0 := initMarket extractedMarket
  let offerTotal1 :=
    if offerTotal0 ≤ 0 ∧ 0 < marketTotal0 then
      ((jround (marketTotal0 * (75 / 100)) : ℤ) : ℚ)
    else offerTotal0
  let marketTotal1 :=
    if marketTotal0 ≤ 0 ∧ 0 < offerTotal1 then
      ((jround (offerTotal1 * marketFactor recOpt) : ℤ) : ℚ)
    else marketTotal0
  (offerTotal1, marketTotal1)

/-- The derived totals, for either shape of the stored ingestion state. -/
def deriveTotals (parsedOpt : Option IngestParsed)
    (extractedMarket extractedOffer : Option ℚ) (recOpt : Option Rec) : ℚ × ℚ :=
  match parsedOpt with
  | some p => deriveTotalsParsed p extractedMarket extractedOffer recOpt
  | none => deriveTotalsNoParsed extractedMarket extractedOffer recOpt

/-- The `offerVsMarket` state set by the `useEffect`: the derived pair
when both totals are positive, nothing otherwise. -/
def offerVsMarket (parsedOpt : Option IngestParsed)
    (extractedMarket extractedOffer : Option ℚ) (recOpt : Option Rec) :
    Option (ℚ × ℚ) :=
  let totals := deriveTotals parsedOpt extractedMarket extractedOffer recOpt
  if 0 < totals.1 ∧ 0 < totals.2 then some totals else none

/-- The comparison panel of `Results.tsx` is rendered exactly when the
`offerVsMarket` state holds a value (`{offerVsMarket && ...}`). -/
def comparisonPanelShown (parsedOpt : Option IngestParsed)
    (extractedMarket extractedOffer : Option ℚ) (recOpt : Option Rec) : Bool :=
  (offerVsMarket parsedOpt extractedMarket extractedOffer recOpt).isSome

/-- C4: a comparison pair is produced — and the comparison panel is
rendered — exactly when both derived totals are strictly positive, for
every combination of stored ingestion fields and extracted evaluation
values. -/
theorem offerVsMarket_iff_both_positive (parsedOpt : Option IngestParsed)
    (em eo : Option ℚ) (recOpt : Option Rec) (o m : ℚ) :
    (offerVsMarket parsedOpt em eo recOpt = some (o, m) ↔
      deriveTotals parsedOpt em eo recOpt = (o, m) ∧ 0 < o ∧ 0 < m) ∧
    (comparisonPanelShown parsedOpt em eo recOpt = true ↔
      0 < (deriveTotals parsedOpt em eo recOpt).1 ∧
      0 < (deriveTotals parsedOpt em eo recOpt).2) := by
  rcases hd : deriveTotals parsedOpt em eo recOpt with ⟨a, b⟩
  simp only [comparisonPanelShown, offerVsMarket, hd]
  constructor
  · by_cases hpos : 0 < a ∧ 0 < b
    · rw [if_pos hpos, Option.some_inj]
      simp only [Prod.mk.injEq]
      constructor
      · rintro ⟨rfl, rfl⟩
        exact ⟨⟨rfl, rfl⟩, hpos⟩
      · rintro ⟨⟨rfl, rfl⟩, _⟩
        exact ⟨rfl, rfl⟩
    · rw [if_neg hpos]
      simp only [Prod.mk.injEq]
      constructor
      · intro h
        exact absurd h (by simp)
      · rintro ⟨⟨rfl, rfl⟩, h2⟩
        exact (hpos h2).elim
  · by_cases hpos : 0 < a ∧ 0 < b
    · simp [hpos]
    · simp [hpos]

/-- C5: whenever exactly one of the two totals is known (positive), the
other side is derived by the fixed factor: market = round(offer × 0.95)
under an accept recommendation and round(offer × 1.2) otherwise
(in particular with no stored evaluation), and offer = round(market × 0.75)
when only the market total is known — in both shapes of the stored
ingestion state. -/
theorem fixedRatioFallbacks (p : IngestParsed) (em eo : Option ℚ)
    (recOpt : Option Rec) :
    (0 < initOfferParsed p eo → initMarket em ≤ 0 →
      deriveTotalsParsed p em eo recOpt =
        (initOfferParsed p eo,
         ((jround (initOfferParsed p eo * marketFactor recOpt) : ℤ) : ℚ))) ∧
    (initOfferParsed p eo ≤ 0 → 0 < initMarket em →
      deriveTotalsParsed p em eo recOpt =
        (((jround (initMarket em * (75 / 100)) : ℤ) : ℚ), initMarket em)) ∧
    (0 < eo.getD 0 → initMarket em ≤ 0 →
      deriveTotalsNoParsed em eo recOpt =
        (eo.getD 0, ((jround (eo.getD 0 * marketFactor recOpt) : ℤ) : ℚ))) ∧
    (eo.getD 0 ≤ 0 → 0 < initMarket em →
      deriveTotalsNoParsed em eo recOpt =
        (((jround (initMarket em * (75 / 100)) : ℤ) : ℚ), initMarket em)) ∧
    marketFactor none = 12 / 10 ∧
    (∀ rc : Rec, marketFactor (some rc) =
      if rc = Rec.accept then 95 / 100 else 12 / 10) := by
  refine ⟨?_, ?_, ?_, ?_, rfl, fun rc => rfl⟩
  · intro ho hm
    simp only [deriveTotalsParsed]
    split_ifs with h1 h2 h3 <;>
      first
        | rfl
        | exact absurd h2.1 (not_le.mpr ho)
        | exact absurd h3.1 (not_le.mpr ho)
        | exact absurd ⟨hm, ho⟩ h1
  · intro ho hm
    simp only [deriveTotalsParsed]
    split_ifs with h1 h2 h3 <;>
      first
        | rfl
        | exact absurd h1.1 (not_le.mpr hm)
        | exact absurd ⟨ho, hm⟩ h2
        | exact absurd ⟨ho, hm⟩ h3
  · intro ho hm
    simp only [deriveTotalsNoParsed]
    split_ifs with h1 h2 h3 <;>
      first
        | rfl
        | exact absurd h1.1 (not_le.mpr ho)
        | exact absurd ⟨hm, ho⟩ h2
        | exact absurd ⟨hm, ho⟩ h3
  · intro ho hm
    simp only [deriveTotalsNoParsed]
    split_ifs with h1 h2 h3 <;>
      first
        | rfl
        | exact absurd h2.1 (not_le.mpr hm)
        | exact absurd h3.1 (not_le.mpr hm)
        | exact absurd ⟨ho, hm⟩ h1

/-- Witness for C5: stored fields 100000 base, 10% bonus, 20000 equity and
no extractable market value give offer total 130000 and market total
round(130000 × 1.2) = 156000. -/
theorem fixedRatioFallbacks_witness :
    0 < initOfferParsed ⟨some 100000, some 10, some 20000⟩ none ∧
    initMarket none ≤ 0 ∧
    deriveTotalsParsed ⟨some 100000, some 10, some 20000⟩ none none none =
      (initOfferParsed ⟨some 100000, some 10, some 20000⟩ none,
       ((jround (initOfferParsed ⟨some 100000, some 10, some 20000⟩ none *
         marketFactor none) : ℤ) : ℚ)) := by
  have ho : 0 < initOfferParsed ⟨some 100000, some 10, some 20000⟩ none := by
    norm_num [initOfferParsed, jsTruthyPos]
  have hm : initMarket none ≤ 0 := by
    norm_num [initMarket]
  exact ⟨ho, hm,
    (fixedRatioFallbacks ⟨some 100000, some 10, some 20000⟩ none none none).1 ho hm⟩

/-- The external evaluation payload with every field possibly missing
(`none` models a JSON object without that field, read as `undefined`). -/
structure RawEvaluation where
  score : Option ℚ
  recommendation : Option Rec
  confidence : Option ℚ
  key_drivers : Option (List Driver)
  negotiation_targets : Option (List NegTarget)
  risks : Option (List String)
  one_paragraph_summary : Option String
deriving DecidableEq, Repr

/-- `Math.round` on a possibly-NaN number (`none` stands for NaN). -/
def jroundJ (x : Option ℚ) : Option ℤ := x.map jround

/-- The `clamp` helper on a possibly-NaN number: `Math.min`/`Math.max`
both return NaN on NaN, so NaN propagates. -/
def clampJ (n : Option ℤ) (low high : ℤ) : Option ℤ :=
  n.map (fun v => clampI v low high)

/-- `x >= c` on a possibly-NaN number: every comparison with NaN is false. -/
def jgeJ (x : Option ℤ) (c : ℤ) : Bool :=
  match x with
  | none => false
  | some v => decide (c ≤ v)

/-- `toGrade` as evaluated on a possibly-NaN score: with NaN every
threshold test fails and the chain falls through to "D". -/
def toGradeJ (s : Option ℤ) : String :=
  if jgeJ s 93 then "A"
  else if jgeJ s 85 then "A-"
  else if jgeJ s 78 then "B+"
  else if jgeJ s 70 then "B"
  else if jgeJ s 62 then "C"
  else "D"

/-- Category scores of the analysis when computed from a raw payload
(each may be NaN). -/
structure RawCategoryScores where
  financial : Option ℤ
  career : Option ℤ
  lifestyle : Option ℤ
  alignment : Option ℤ
  risk : Option ℤ
deriving DecidableEq, Repr

/-- The analysis object produced from a raw payload: numeric fields may
be NaN, the summary may be `undefined`. -/
structure RawAnalysisData where
  overallScore : Option ℤ
  categoryScores : RawCategoryScores
  grade : String
  strengths : List String
  risks : List String
  financialProjection : Option String
  negotiationInsights : String
  confidence : Option ℤ
  recommendation : Option Rec
deriving DecidableEq, Repr

/-- `mapEvalToAnalysis` evaluated on a raw payload with possibly missing
fields, exactly as the untyped JavaScript runs: a missing number flows
through the arithmetic as NaN, while a property access (`length`,
`filter`) on a missing list throws, modelled as `Except.error`; the
statements run in source order (risks are touched before the category
scores are assembled into the returned object, key drivers before
negotiation targets). -/
def mapEvalToAnalysisRaw (priorities : Priorities) (evalOut : RawEvaluation) :
    Except String RawAnalysisData := do
  let overallScore := clampJ (jroundJ (evalOut.score.map (fun s => s * 10))) 0 100
  let confidence := clampJ (jroundJ (evalOut.confidence.map (fun c => c * 100))) 0 100
  let riskPenalty : ℤ :=
    if evalOut.recommendation = some Rec.needs_more_info then 18
    else if evalOut.recommendation = some Rec.renegotiate then 8 else 0
  let risks ← match evalOut.risks with
    | some r => pure r
    | none => Except.error "TypeError: undefined risks has no length"
  let riskScore := clampJ (jroundJ (confidence.map (fun c =>
    76 - (risks.length : ℚ) * 7 - (riskPenalty : ℚ) + (c : ℚ) * (1 / 10)))) 12 95
  let categoryScores : RawCategoryScores :=
    { financial := clampJ (jroundJ (overallScore.map (fun o =>
        (o : ℚ) + ((priorities.financial : ℚ) - 3) * 6))) 8 98
      career := clampJ (jroundJ (overallScore.map (fun o =>
        (o : ℚ) - 4 + ((priorities.career : ℚ) - 3) * 6))) 8 98
      lifestyle := clampJ (jroundJ (overallScore.map (fun o =>
        (o : ℚ) - 8 + ((priorities.lifestyle : ℚ) - 3) * 6))) 8 95
      alignment := clampJ (jroundJ (overallScore.map (fun o =>
        (o : ℚ) - 6 + ((priorities.alignment : ℚ) - 3) * 6))) 8 96
      risk := riskScore }
  let drivers ← match evalOut.key_drivers with
    | some d => pure d
    | none => Except.error "TypeError: undefined key drivers has no filter"
  let strengths := ((drivers.filter
    (fun d => d.impact = Impact.positive ∨ d.impact = Impact.neutral)).map
      (fun d => d.label)).take 6
  let targets ← match evalOut.negotiation_targets with
    | some t => pure t
    | none => Except.error "TypeError: undefined negotiation targets has no length"
  let negotiationInsights :=
    if targets.length > 0 then
      String.intercalate " " (targets.map
        (fun t => t.item ++ ": " ++ t.ask ++ " (" ++ t.reason ++ ")"))
    else "No negotiation targets were returned by the model."
  Except.ok
    { overallScore := overallScore
      categoryScores := categoryScores
      grade := toGradeJ overallScore
      strengths := if strengths.length > 0 then strengths
        else ["Model did not return positive key drivers."]
      risks := risks
      financialProjection := evalOut.one_paragraph_summary
      negotiationInsights := negotiationInsights
      confidence := confidence
      recommendation := evalOut.recommendation }

/-- A malformed payload: the `score` field is missing, every other field
is present. -/
def scorelessEval : RawEvaluation :=
  { score := none
    recommendation := some Rec.accept
    confidence := some (8 / 10)
    key_drivers := some [{ label := "Growth", impact := Impact.positive }]
    negotiation_targets := some []
    risks := some ["clawback"]
    one_paragraph_summary := some "ok" }

/-- C6 fails on the code: on a payload whose `score` field is missing the
normalizer does not fail — it returns a result whose overall score is NaN
and whose grade is "D", which the submit flow stores and renders as a
real analysis. -/
theorem malformedScore_is_not_loud :
    (mapEvalToAnalysisRaw ⟨3, 3, 3, 3⟩ scorelessEval).isOk = true ∧
    (mapEvalToAnalysisRaw ⟨3, 3, 3, 3⟩ scorelessEval).toOption.map
      (fun a => (a.overallScore, a.grade)) = some (none, "D") := by
  constructor
  · rfl
  · rfl

/-- The profile stored under `offergo-profile`. -/
structure ProfileData where
  name : String
  city : String
  country : String
  nationality : String
  monthlyExpenses : String
  ownedAsset : String
  debts : String
  resumeName : Option String
  completed : Bool
deriving DecidableEq, Repr

/-- The empty profile returned when nothing (valid) is stored. -/
def emptyProfile : ProfileData :=
  { name := "", city := "", country := "", nationality := ""
    monthlyExpenses := "", ownedAsset := "", debts := ""
    resumeName := none, completed := false }

/-- `loadProfile` of the profile hook: the whole read is inside
`try ... catch {}`, so an absent key or a corrupt stored value (whose
parse throws) yields the empty profile. -/
def loadProfile (stored : Option (Option ProfileData)) : ProfileData :=
  match stored with
  | some (some p) => p
  | _ => emptyProfile

/-- One offer as recorded in the stored submission snapshot. -/
structure StoredOffer where
  id : String
  fileName : String
  isCurrent : Bool
deriving DecidableEq, Repr

/-- The submission snapshot stored under `offergo-submission`. -/
structure StoredSubmission where
  offers : List StoredOffer
  priorities : Priorities
  backendOfferId : Option ℤ
deriving DecidableEq, Repr

/-- The analysis shape consumed by `Results.tsx` (recommendation may be
absent there). -/
structure AnalysisData where
  overallScore : ℤ
  categoryScores : CategoryScores
  grade : String
  strengths : List String
  risks : List String
  financialProjection : String
  negotiationInsights : String
  comparisonData : List OfferComparison
  confidence : ℤ
  recommendation : Option Rec
deriving DecidableEq, Repr

/-- The fixed demo analysis built by `generateDemoData`. -/
def demoBase : AnalysisData :=
  { overallScore := 87
    categoryScores :=
      { financial := 92, career := 81, lifestyle := 74, alignment := 85, risk := 68 }
    grade := "A-"
    strengths :=
      ["Total compensation is 18% above market median for this role and geography.",
       "Equity package includes accelerated vesting on acquisition — significant upside.",
       "Strong 401(k) match and health benefits reduce hidden cost exposure.",
       "Role scope aligns well with senior leadership trajectory within 2–3 years."]
    risks :=
      ["Sign-on bonus has a 12-month clawback clause — cash-flow risk if you leave early.",
       "Equity valuation is based on latest 409A which may not reflect current market.",
       "No explicit remote-work guarantee in the offer letter — lifestyle risk.",
       "Non-compete clause could limit lateral moves for 12 months post-departure."]
    financialProjection :=
      "Over a 4-year vesting period, total projected compensation ranges from $820K (bear) to $1.4M (bull), depending on equity appreciation. The base + bonus structure alone places you in the 78th percentile for comparable roles."
    negotiationInsights :=
      "Consider negotiating the sign-on clawback down to 6 months and requesting a remote-work addendum. Equity refresh after Year 2 is common at this stage — worth raising upfront. PTO policy is below industry average; request 5 additional days."
    comparisonData := []
    confidence := 82
    recommendation := some Rec.accept }

/-- `generateDemoData` of `Results.tsx`.  The reads of the demo analysis
and of the submission snapshot call `JSON.parse` with no surrounding
`try`, so a corrupt stored value propagates the exception
(`Except.error`).  `randomDraw i` stands for the i-th
`Math.floor(Math.random() * k)` draw used for extra comparison rows. -/
def generateDemoData (demoAnalysis : Option (Option AnalysisData))
    (submission : Option (Option StoredSubmission))
    (randomDraw : ℕ → ℤ) : Except String AnalysisData :=
  match demoAnalysis with
  | some (some a) => Except.ok a
  | some none => Except.error "SyntaxError: Unexpected token in JSON"
  | none =>
    match submission with
    | some none => Except.error "SyntaxError: Unexpected token in JSON"
    | stored =>
      let parsed : Option StoredSubmission :=
        match stored with
        | some (some s) => some s
        | _ => none
      let offerCount :=
        match parsed with
        | some s => s.offers.length
        | none => 1
      if offerCount > 1 then
        let names : List String :=
          match parsed with
          | some s => s.offers.map (fun o => stripOfferExt o.fileName)
          | none => []
        let rows := names.mapIdx (fun i name =>
          { name := name
            overall := if i = 0 then 87 else 72 + randomDraw (4 * i)
            financial := if i = 0 then 92 else 65 + randomDraw (4 * i + 1)
            career := if i = 0 then 81 else 60 + randomDraw (4 * i + 2)
            risk := if i = 0 then 68 else 55 + randomDraw (4 * i + 3) })
        Except.ok { demoBase with comparisonData := rows }
      else Except.ok demoBase

/-- The guarded `offergo-submission` read of the Results effect: a corrupt
value is caught, leaving priorities and backend offer id unset. -/
def loadSubmissionState (raw : Option (Option StoredSubmission)) :
    Option Priorities × Option ℤ :=
  match raw with
  | some (some s) => (some s.priorities, s.backendOfferId)
  | _ => (none, none)

/-- The guarded `offergo-workflow-eval` read of the Results effect. -/
def loadWorkflowEvalState (raw : Option (Option WorkflowEvaluation)) :
    Option WorkflowEvaluation :=
  match raw with
  | some (some e) => some e
  | _ => none

/-- The guarded `offergo-ingest-parsed` read and derivation: a corrupt
stored value throws inside the `try`, is caught, and produces no
comparison; otherwise the derivation of `offerVsMarket` runs. -/
def offerVsMarketStored (storedParsed : Option (Option IngestParsed))
    (em eo : Option ℚ) (recOpt : Option Rec) : Option (ℚ × ℚ) :=
  match storedParsed with
  | some none => none
  | some (some p) => offerVsMarket (some p) em eo recOpt
  | none => offerVsMarket none em eo recOpt

/-- C7 fails on the code: a corrupt `offergo-demo-analysis` value makes
`generateDemoData` throw instead of treating it as absent. -/
theorem generateDemoData_crashes_on_corrupt :
    generateDemoData (some none) none (fun _ => 0) =
      Except.error "SyntaxError: Unexpected token in JSON" := rfl

/-- C7 as amended: the profile, submission-state, workflow-evaluation and
ingest-parsed loaders catch a parse failure and treat the value as
absent, while `generateDemoData` propagates the exception when the demo
analysis — or, with it absent, the submission snapshot — is corrupt. -/
theorem persistedLoaders_corrupt_behaviour (em eo : Option ℚ) (r : Option Rec)
    (sub : Option (Option StoredSubmission)) (randomDraw : ℕ → ℤ) :
    loadProfile (some none) = emptyProfile ∧
    loadProfile none = emptyProfile ∧
    loadSubmissionState (some none) = (none, none) ∧
    loadWorkflowEvalState (some none) = none ∧
    offerVsMarketStored (some none) em eo r = none ∧
    generateDemoData (some none) sub randomDraw =
      Except.error "SyntaxError: Unexpected token in JSON" ∧
    generateDemoData none (some none) randomDraw =
      Except.error "SyntaxError: Unexpected token in JSON" :=
  ⟨rfl, rfl, rfl, rfl, rfl, rfl, rfl⟩

/-- A browser storage area: an association list of keys and stored
strings. -/
abbrev Storage := List (String × String)

/-- `Storage.getItem`. -/
def getItem (st : Storage) (k : String) : Option String :=
  (st.find? (fun kv => kv.1 == k)).map (fun kv => kv.2)

/-- `Storage.removeItem`: never throws, a no-op on an absent key. -/
def removeItem (st : Storage) (k : String) : Storage :=
  st.filter (fun kv => kv.1 != k)

/-- `logoutDemoUser` of the demo-users module: removes the profile from
local storage and exactly the submission snapshot, the demo analysis and
the demo-session marker from session storage. -/
def logoutDemoUser (localStore sessionStore : Storage) : Storage × Storage :=
  (removeItem localStore "offergo-profile",
   removeItem (removeItem (removeItem sessionStore "offergo-submission")
     "offergo-demo-analysis") "offergo-demo-user")

theorem getItem_removeItem_self (st : Storage) (k : String) :
    getItem (removeItem st k) k = none := by
  induction st with
  | nil => rfl
  | cons kv t ih =>
    unfold removeItem at ih ⊢
    rw [List.filter_cons]
    by_cases h : kv.1 = k
    · rw [if_neg (by simp [h])]
      exact ih
    · rw [if_pos (by simp [h])]
      unfold getItem
      rw [List.find?_cons_of_neg _ (by simp [h])]
      exact ih

theorem getItem_removeItem_other (st : Storage) (k k2 : String) (h : k2 ≠ k) :
    getItem (removeItem st k) k2 = getItem st k2 := by
  induction st with
  | nil => rfl
  | cons kv t ih =>
    unfold removeItem at ih ⊢
    rw [List.filter_cons]
    by_cases hk : kv.1 = k
    · rw [if_neg (by simp [hk])]
      have hskip : getItem (kv :: t) k2 = getItem t k2 := by
        unfold getItem
        rw [List.find?_cons_of_neg _ (by simp [hk]; exact Ne.symm h)]
      rw [hskip]
      exact ih
    · rw [if_pos (by simp [hk])]
      by_cases hk2 : kv.1 = k2
      · unfold getItem
        rw [List.find?_cons_of_pos _ (by simp [hk2]),
          List.find?_cons_of_pos _ (by simp [hk2])]
      · unfold getItem
        rw [List.find?_cons_of_neg _ (by simp [hk2]),
          List.find?_cons_of_neg _ (by simp [hk2])]
        exact ih

/-- C8 fails on the code: logging out leaves the stored workflow
evaluation (and likewise the ingest-parsed and market-snapshot keys) in
session storage. -/
theorem logout_leaves_workflow_eval :
    getItem (logoutDemoUser [] [("offergo-workflow-eval", "v")]).2
      "offergo-workflow-eval" = some "v" := rfl

/-- C8 as amended: logout removes the profile, the submission snapshot,
the derived demo analysis and the demo-session marker; every other key —
in particular the workflow evaluation, the parsed ingestion fields and
the market snapshot — is left untouched, and removal of an absent key is
a no-op rather than an error. -/
theorem logoutDemoUser_removes_exactly (ls ss : Storage) :
    getItem (logoutDemoUser ls ss).1 "offergo-profile" = none ∧
    getItem (logoutDemoUser ls ss).2 "offergo-submission" = none ∧
    getItem (logoutDemoUser ls ss).2 "offergo-demo-analysis" = none ∧
    getItem (logoutDemoUser ls ss).2 "offergo-demo-user" = none ∧
    (∀ k, k ≠ "offergo-submission" → k ≠ "offergo-demo-analysis" →
      k ≠ "offergo-demo-user" → getItem (logoutDemoUser ls ss).2 k = getItem ss k) ∧
    (∀ k, k ≠ "offergo-profile" →
      getItem (logoutDemoUser ls ss).1 k = getItem ls k) := by
  refine ⟨getItem_removeItem_self _ _, ?_, ?_, getItem_removeItem_self _ _, ?_, ?_⟩
  · rw [show (logoutDemoUser ls ss).2 =
      removeItem (removeItem (removeItem ss "offergo-submission")
        "offergo-demo-analysis") "offergo-demo-user" from rfl]
    rw [getItem_removeItem_other _ _ _ (by decide),
      getItem_removeItem_other _ _ _ (by decide)]
    exact getItem_removeItem_self _ _
  · rw [show (logoutDemoUser ls ss).2 =
      removeItem (removeItem (removeItem ss "offergo-submission")
        "offergo-demo-analysis") "offergo-demo-user" from rfl]
    rw [getItem_removeItem_other _ _ _ (by decide)]
    exact getItem_removeItem_self _ _
  · intro k h1 h2 h3
    rw [show (logoutDemoUser ls ss).2 =
      removeItem (removeItem (removeItem ss "offergo-submission")
        "offergo-demo-analysis") "offergo-demo-user" from rfl]
    rw [getItem_removeItem_other _ _ _ h3, getItem_removeItem_other _ _ _ h2,
      getItem_removeItem_other _ _ _ h1]
  · intro k h
    exact getItem_removeItem_other _ _ _ h

/-- Witness for C8 (amended) on concrete stores: the profile and session
keys are removed, the workflow-evaluation key survives. -/
theorem logoutDemoUser_removes_exactly_witness :
    getItem (logoutDemoUser [("offergo-profile", "p")]
      [("offergo-submission", "s"), ("offergo-workflow-eval", "v")]).1
      "offergo-profile" = none ∧
    getItem (logoutDemoUser [("offergo-profile", "p")]
      [("offergo-submission", "s"), ("offergo-workflow-eval", "v")]).2
      "offergo-workflow-eval" =
      getItem [("offergo-submission", "s"), ("offergo-workflow-eval", "v")]
        "offergo-workflow-eval" :=
  ⟨(logoutDemoUser_removes_exactly [("offergo-profile", "p")]
      [("offergo-submission", "s"), ("offergo-workflow-eval", "v")]).1,
   (logoutDemoUser_removes_exactly [("offergo-profile", "p")]
      [("offergo-submission", "s"), ("offergo-workflow-eval", "v")]).2.2.2.2.1
      "offergo-workflow-eval" (by decide) (by decide) (by decide)⟩

/-- Role of a chat transcript entry. -/
inductive ChatRole where
  | user
  | ai
deriving DecidableEq, Repr

/-- One chat transcript entry. -/
structure ChatMessage where
  role : ChatRole
  content : String
deriving DecidableEq, Repr

/-- The chat-related component state touched by `sendMessage`. -/
structure ChatState where
  chat : List ChatMessage
  input : String
  typing : Bool
deriving DecidableEq, Repr

/-- A toast notification (title and description). -/
structure Toast where
  title : String
  description : String
deriving DecidableEq, Repr

/-- The outcome of one `sendMessage` call: the final component state, the
chat messages actually sent over the network, and the toasts raised. -/
structure SendOutcome where
  state : ChatState
  requests : List String
  toasts : List Toast
deriving DecidableEq, Repr

/-- The transcript entry appended from the catch block. -/
def chatErrorContent (msg : String) : String :=
  "I couldn\x27t reach Nemotron chat right now. " ++ msg

/-- JS `String.prototype.trim`: strips leading and trailing whitespace. -/
def jsTrim (s : String) : String :=
  String.mk (((s.data.dropWhile Char.isWhitespace).reverse.dropWhile
    Char.isWhitespace).reverse)

/-- The error message thrown when no backend offer id is resolved. -/
def missingOfferMsg : String :=
  "Missing offer context for chat. Re-run analysis from Submit page."

/-- `sendMessage` of `Results.tsx` as a state transition.  `netResult`
stands for the fetch round-trip performed when an offer id exists:
`Except.ok answer` for a 2xx response carrying that answer,
`Except.error e` for a thrown error or a non-2xx body `e`.  With no
offer id the guard throws before the fetch, so no request is issued. -/
def sendMessage (backendOfferId : Option ℤ) (st : ChatState)
    (netResult : Except String String) : SendOutcome :=
  let text := jsTrim st.input
  if text = "" then { state := st, requests := [], toasts := [] }
  else
    let st1 : ChatState :=
      { chat := st.chat ++ [{ role := ChatRole.user, content := text }]
        input := ""
        typing := true }
    match backendOfferId with
    | none =>
      { state := { st1 with
          chat := st1.chat ++
            [{ role := ChatRole.ai, content := chatErrorContent missingOfferMsg }]
          typing := false }
        requests := []
        toasts := [{ title := "Nemotron chat unavailable"
                     description := missingOfferMsg }] }
    | some _ =>
      match netResult with
      | Except.ok answer =>
        { state := { st1 with
            chat := st1.chat ++ [{ role := ChatRole.ai, content := answer }]
            typing := false }
          requests := [text]
          toasts := [] }
      | Except.error e =>
        { state := { st1 with
            chat := st1.chat ++ [{ role := ChatRole.ai, content := chatErrorContent e }]
            typing := false }
          requests := [text]
          toasts := [{ title := "Nemotron chat unavailable", description := e }] }

/-- C9: a non-empty message sent with no resolved backend offer id keeps
the appended user entry, appends the explanatory error entry, raises the
notification toast, and issues no network request. -/
theorem sendMessage_without_offer_id (st : ChatState)
    (net : Except String String) (h : jsTrim st.input ≠ "") :
    sendMessage none st net =
      { state :=
          { chat := st.chat ++
              [{ role := ChatRole.user, content := jsTrim st.input },
               { role := ChatRole.ai, content := chatErrorContent missingOfferMsg }]
            input := ""
            typing := false }
        requests := []
        toasts := [{ title := "Nemotron chat unavailable"
                     description := missingOfferMsg }] } := by
  unfold sendMessage
  rw [if_neg h]
  simp [List.append_assoc]

/-- Witness for C9 on a concrete state with input "hi". -/
theorem sendMessage_without_offer_id_witness :
    jsTrim "hi" ≠ "" ∧
    sendMessage none { chat := [], input := "hi", typing := false }
        (Except.error "unreachable") =
      { state :=
          { chat := [{ role := ChatRole.user, content := jsTrim "hi" },
                     { role := ChatRole.ai, content := chatErrorContent missingOfferMsg }]
            input := ""
            typing := false }
        requests := []
        toasts := [{ title := "Nemotron chat unavailable"
                     description := missingOfferMsg }] } := by
  have h : jsTrim "hi" ≠ "" := by decide
  exact ⟨h, sendMessage_without_offer_id
    { chat := [], input := "hi", typing := false } (Except.error "unreachable") h⟩

/-- C10: with empty or all-whitespace input, `sendMessage` returns before
touching anything: transcript, input and typing indicator are unchanged
and no request or toast is produced. -/
theorem sendMessage_blank_input (backendOfferId : Option ℤ) (st : ChatState)
    (net : Except String String) (h : jsTrim st.input = "") :
    sendMessage backendOfferId st net =
      { state := st, requests := [], toasts := [] } := by
  unfold sendMessage
  rw [if_pos h]

/-- Witness for C10 on a concrete state with whitespace-only input. -/
theorem sendMessage_blank_input_witness :
    jsTrim "   " = "" ∧
    sendMessage (some 7) { chat := [], input := "   ", typing := true }
        (Except.ok "answer") =
      { state := { chat := [], input := "   ", typing := true }
        requests := []
        toasts := [] } := by
  have h : jsTrim "   " = "" := by decide
  exact ⟨h, sendMessage_blank_input (some 7)
    { chat := [], input := "   ", typing := true } (Except.ok "answer") h⟩

end OfferGo
